import Mathlib

/-!
# Verification of the Ad-Insight Analysis Engine (src/services/youtube.js)

Shallow embedding of the core analysis functions of the repository:
`detectSponsorship`, `extractBrands`, `convertTimestampToSeconds`,
`calculateEngagementMetrics`, `analyzeCommentSentiment`,
`analyzeVideoContent`, `calculateAdEffectiveness`, and
`generateChannelAdInsights`.

Modelling conventions:
* JavaScript numbers are embedded as exact rationals (`ℚ`) for the scoring
  arithmetic and as integers (`Int`) for parsed timestamps; `NaN` is an
  explicit constructor where the source can produce it.
* `null`/`undefined` string arguments are `Option String` (`none`); the
  JS truthiness test `if (description)` also rejects the empty string and
  is modelled explicitly.
* External collaborators (the YouTube API, the `natural` sentiment lexicon
  and the generative-text service) are oracle inputs: each comment carries
  the polarity score the lexicon would return for its text, and the
  generative reply is an `Option String` (`none` = the call failed).
-/

namespace AdInsights

/-- JS `\d` character class: the ASCII digits. -/
def isDigitJs (c : Char) : Bool := '0' ≤ c && c ≤ '9'

/-- JS `\s` character class (the ASCII whitespace characters that occur in
practice: space, tab, newline, carriage return, form feed, vertical tab). -/
def isSpaceJs (c : Char) : Bool :=
  c = ' ' || c = '\t' || c = '\n' || c = '\r' || c = '\x0c' || c = '\x0b'

/-- Numeric value of a list of ASCII digit characters (most significant first). -/
def digitsVal (ds : List Char) : Nat :=
  ds.foldl (fun acc c => acc * 10 + (c.toNat - '0'.toNat)) 0

/-- JS `parseInt(s, 10)`: skip leading whitespace, optional sign, then the
longest prefix of decimal digits; `none` models the `NaN` result when no
digit is found. -/
def parseIntJs (s : String) : Option Int :=
  let cs := s.toList.dropWhile isSpaceJs
  let (sign, cs2) : Int × List Char :=
    match cs with
    | '-' :: r => (-1, r)
    | '+' :: r => (1, r)
    | _ => (1, cs)
  let ds := cs2.takeWhile isDigitJs
  if ds.isEmpty then none else some (sign * (digitsVal ds : Int))

/-- JS `s.split(sep)` for a one-character separator string: the string is
cut at every occurrence of the separator, adjacent separators producing
empty parts. -/
def splitChar (sep : Char) : List Char → List Char → List String
  | [], acc => [acc.reverse.asString]
  | c :: rest, acc =>
    if c = sep then acc.reverse.asString :: splitChar sep rest []
    else splitChar sep rest (c :: acc)

/-- Result of `convertTimestampToSeconds`: the JS function returns `null`,
a number, or `NaN` (when `parseInt` fails on a colon-separated part). -/
inductive TsResult where
  | null : TsResult
  | num : Int → TsResult
  | nan : TsResult
deriving DecidableEq, Repr

/-- `endTime - startTime` on JS numbers: `NaN` propagates.
(`null` operands do not occur at the call site, which guards with
`!== null`; they are mapped to `nan` for totality.) -/
def tsSub (e s : TsResult) : TsResult :=
  match e, s with
  | .num a, .num b => .num (a - b)
  | _, _ => .nan

/-- `convertTimestampToSeconds` (src/services/youtube.js lines 151-164):
`!timestamp` is true exactly for the empty string argument; `split(':')`
separates at every colon; 1, 2 or 3 parts are combined with `parseInt`,
any other part-count yields `null`.  A failed `parseInt` is `NaN`, and
`NaN` propagates through the arithmetic. -/
def convertTimestampToSeconds (timestamp : String) : TsResult :=
  if timestamp.toList.isEmpty then .null
  else
    match (splitChar ':' timestamp.toList []).map parseIntJs with
    | [some a] => .num a
    | [_] => .nan
    | [some a, some b] => .num (a * 60 + b)
    | [_, _] => .nan
    | [some a, some b, some c] => .num (a * 3600 + b * 60 + c)
    | [_, _, _] => .nan
    | _ => .null

/-- JS `haystack.includes(needle)`: substring containment. -/
def strIncludes (haystack needle : String) : Bool :=
  decide (needle.toList <:+: haystack.toList)

/-- JS `String.prototype.toLowerCase` (per-character lowering; the inputs of
interest are ASCII, where `Char.toLower` agrees with JS). -/
def jsToLower (s : String) : String := (s.toList.map Char.toLower).asString

/-- JS `String.prototype.trim`: strip leading and trailing whitespace. -/
def jsTrim (s : String) : String :=
  ((s.toList.dropWhile isSpaceJs).reverse.dropWhile isSpaceJs).reverse.asString

mutual

/-- Segment state of JS `s.split(/[p]+/)`: accumulating the current segment
(in reverse) while scanning. -/
def splitRunsSeg (p : Char → Bool) : List Char → List Char → List String
  | [], acc => [acc.reverse.asString]
  | c :: rest, acc =>
    if p c then acc.reverse.asString :: splitRunsDelim p rest
    else splitRunsSeg p rest (c :: acc)

/-- Delimiter state of JS `s.split(/[p]+/)`: consuming a maximal run of
delimiter characters. -/
def splitRunsDelim (p : Char → Bool) : List Char → List String
  | [] => [""]
  | c :: rest => if p c then splitRunsDelim p rest else splitRunsSeg p rest [c]

end

/-- JS `s.split(regex)` where the regex is a character class quantified
with `+` (used by the source as `split(/[.!?]+/)` and `split(/\s+/)`):
the string is cut at every maximal run of delimiter characters, with empty
leading/trailing segments exactly as JS produces them. -/
def splitRuns (p : Char → Bool) (s : String) : List String :=
  splitRunsSeg p s.toList []

/-- The sentence delimiters of `description.split(/[.!?]+/)`. -/
def isSentDelim (c : Char) : Bool := c = '.' || c = '!' || c = '?'

/-- Characters stripped by `word.replace(/[,.!?;:()"']/g, '')`. -/
def wordPunct : List Char := [',', '.', '!', '?', ';', ':', '(', ')', '"', '\'']

/-- `word.replace(/[,.!?;:()"']/g, '')`. -/
def cleanWord (w : String) : String :=
  (w.toList.filter (fun c => !wordPunct.contains c)).asString

/-- Test of `/^[A-Z][a-z]{2,}$/` on a word. -/
def isBrandWord (w : String) : Bool :=
  match w.toList with
  | c :: rest =>
    ('A' ≤ c && c ≤ 'Z') && decide (rest.length ≥ 2)
      && rest.all (fun d => 'a' ≤ d && d ≤ 'z')
  | [] => false

/-- JS `[A-Za-z0-9]` character class. -/
def isAlnumJs (c : Char) : Bool :=
  isDigitJs c || ('a' ≤ c && c ≤ 'z') || ('A' ≤ c && c ≤ 'Z')

/-- `brand.replace(/[®™\s]/g, '')`. -/
def stripTrademark (s : String) : String :=
  (s.toList.filter (fun c => !(c = '®' || c = '™' || isSpaceJs c))).asString

/-- All matches of `text.match(/([A-Za-z0-9]+)(?:\s*[®™])/g)`: a global
left-to-right scan; at each position an alphanumeric run, optional
whitespace and a trademark symbol form a match (greedy matching is
deterministic here because the three character classes are disjoint), and
scanning resumes after the match; otherwise it advances one character.
The fuel argument (initially the string length) bounds the scan. -/
def tmScan : Nat → List Char → List String
  | 0, _ => []
  | _, [] => []
  | Nat.succ fuel, c :: rest =>
    if isAlnumJs c then
      let run := (c :: rest).takeWhile isAlnumJs
      let r1 := (c :: rest).dropWhile isAlnumJs
      let sp := r1.takeWhile isSpaceJs
      let r2 := r1.dropWhile isSpaceJs
      match r2 with
      | sym :: r3 =>
        if sym = '®' || sym = '™' then
          (run ++ sp ++ [sym]).asString :: tmScan fuel r3
        else tmScan fuel rest
      | [] => tmScan fuel rest
    else tmScan fuel rest

/-- `extractBrands` (src/services/youtube.js lines 122-144): capitalised
words (after punctuation stripping) plus trademark-marked tokens, in
source push order, duplicates allowed. -/
def extractBrands (text : String) : List String :=
  let words := splitRuns isSpaceJs text
  let capBrands := words.filterMap (fun w =>
    let cw := cleanWord w
    if isBrandWord cw then some cw else none)
  let tmBrands := (tmScan text.toList.length text.toList).map stripTrademark
  capBrands ++ tmBrands

/-!
## The ad-timestamp regex

`/(\d+:?\d*)\s*-?\s*(\d+:?\d*)?\s*(ad|sponsor|promotion|sponsored)/i` is
embedded as an explicit backtracking matcher.  The `\s*` and `-?` pieces
are deterministic maximal-munch (no following piece can consume a
whitespace character or `-`), while the two timestamp groups enumerate
their splits in the engine's backtracking priority order.
-/

/-- All ways the group `\d+:?\d*` can match a prefix of `cs`, as
(consumed, rest) pairs in backtracking priority order: longest `\d+`
first, colon taken before skipped, longest trailing `\d*` first. -/
def tsTokenSplits (cs : List Char) : List (List Char × List Char) :=
  let maxm := (cs.takeWhile isDigitJs).length
  ((List.range maxm).map (fun i => maxm - i)).flatMap (fun m =>
    let taken1 := cs.take m
    let rest1 := cs.drop m
    let colonOpts : List (List Char × List Char) :=
      match rest1 with
      | ':' :: r => [(taken1 ++ [':'], r), (taken1, rest1)]
      | _ => [(taken1, rest1)]
    colonOpts.flatMap (fun t2 =>
      let max2 := (t2.2.takeWhile isDigitJs).length
      (List.range (max2 + 1)).map (fun j =>
        let k := max2 - j
        (t2.1 ++ t2.2.take k, t2.2.drop k))))

/-- The alternation `(ad|sponsor|promotion|sponsored)` of the timestamp
pattern. -/
def adAlternatives : List String := ["ad", "sponsor", "promotion", "sponsored"]

/-- Case-insensitive test that one of the `adAlternatives` matches at the
start of `cs` (the pattern is unanchored on the right). -/
def adWordAt (cs : List Char) : Bool :=
  adAlternatives.any (fun kw => kw.toList.isPrefixOf (cs.map Char.toLower))

/-- Attempt to match the whole ad-timestamp pattern at the start of `cs`,
returning the two timestamp groups (`group 2` is `none` when the optional
second timestamp did not participate). -/
def adRegexAt (cs : List Char) : Option (String × Option String) :=
  (tsTokenSplits cs).findSome? (fun p =>
    let r2 := p.2.dropWhile isSpaceJs
    let r3 := match r2 with
      | '-' :: r => r
      | _ => r2
    let r4 := r3.dropWhile isSpaceJs
    let g2opts : List (Option (List Char) × List Char) :=
      ((tsTokenSplits r4).map (fun q => (some q.1, q.2))) ++ [(none, r4)]
    g2opts.findSome? (fun q =>
      let r6 := q.2.dropWhile isSpaceJs
      if adWordAt r6 then some (p.1.asString, q.1.map List.asString)
      else none))

/-- `description.match(adTimestampRegex)`: leftmost match, scanning
positions left to right. -/
def adRegexSearch : List Char → Option (String × Option String)
  | [] => none
  | c :: tl =>
    match adRegexAt (c :: tl) with
    | some r => some r
    | none => adRegexSearch tl

/-!
## detectSponsorship (src/services/youtube.js lines 30-115)
-/

/-- The `sponsorKeywords` list of `detectSponsorship`, in source order. -/
def sponsorKeywords : List String :=
  ["sponsor", "sponsored", "partnership", "partnered", "promotion", "promoted",
   "thanks to", "paid promotion", "sponsored by", "affiliate", "discount code",
   "promo code", "use code", "click the link", "check out", "thanks to our sponsor"]

/-- Tags argument of `detectSponsorship`: the JS guard
`tags && Array.isArray(tags)` distinguishes a real array from `null` /
`undefined` (falsy) and from any truthy non-array value. -/
inductive JsTags where
  | null : JsTags
  | notArray : JsTags
  | arr : List String → JsTags
deriving DecidableEq, Repr

/-- `[...new Set(list)]`: deduplication keeping the first occurrence of
each element, in order. -/
def dedupFirst (seen : List String) : List String → List String
  | [] => []
  | x :: xs =>
    if seen.contains x then dedupFirst seen xs
    else x :: dedupFirst (x :: seen) xs

/-- The record returned by `detectSponsorship`. -/
structure SponsorshipInfo where
  hasSponsorship : Bool
  sponsorshipDetails : String
  adIndicators : List String
  detectedBrands : List String
  adDuration : TsResult
deriving DecidableEq, Repr

/-- Keywords of `sponsorKeywords` found in the lower-cased description, in
source order (the description loop pushes each matching keyword once). -/
def matchedKeywords (descLower : String) : List String :=
  sponsorKeywords.filter (fun kw => strIncludes descLower kw)

/-- Sentences of the description (split on `/[.!?]+/`) whose lower-cased
form contains the keyword. -/
def sentencesWith (description kw : String) : List String :=
  (splitRuns isSentDelim description).filter
    (fun s => strIncludes (jsToLower s) kw)

/-- The `sponsorshipDetails` text accumulated by the description loop:
for every matched keyword, every matching sentence contributes its
trimmed text followed by `". "`. -/
def descriptionDetails (description : String) : String :=
  String.join ((matchedKeywords (jsToLower description)).map (fun kw =>
    String.join ((sentencesWith description kw).map (fun s => jsTrim s ++ ". "))))

/-- The brands accumulated by the description loop: `extractBrands` over
every matching sentence of every matched keyword, in loop order. -/
def descriptionBrands (description : String) : List String :=
  (matchedKeywords (jsToLower description)).flatMap (fun kw =>
    (sentencesWith description kw).flatMap extractBrands)

/-- Inner tag loop: push every keyword contained in the lower-cased tag
that is not already recorded, flagging `hasSponsorship` on any push. -/
def addTagKeywords (acc : List String × Bool) (tagLower : String) :
    List String × Bool :=
  sponsorKeywords.foldl (fun a kw =>
    if strIncludes tagLower kw && !a.1.contains kw then (a.1 ++ [kw], true)
    else a) acc

/-- `/^[A-Z]/.test(tag)`. -/
def startsUpper (s : String) : Bool :=
  match s.toList with
  | c :: _ => 'A' ≤ c && c ≤ 'Z'
  | [] => false

/-- JS truthiness of the description argument: `null`, `undefined` and the
empty string all fail `if (description)` and `description ? ... : null`. -/
def truthyDescription (description : Option String) : Option String :=
  match description with
  | some d => if d.toList.isEmpty then none else some d
  | none => none

/-- `description ? description.match(adTimestampRegex) : null`. -/
def adRegexOnDescription (description : Option String) :
    Option (String × Option String) :=
  match truthyDescription description with
  | some d => adRegexSearch d.toList
  | none => none

/-- `detectSponsorship(description, tags)` (src/services/youtube.js lines
30-115).  The three phases of the source — description keywords, tags,
and the ad-timestamp regex — feed the `hasSponsorship` flag, the detail
text, the indicator list and the brand list exactly in source order;
`adDuration` is `endTime - startTime` whenever the optional second
timestamp group participated and both conversions are non-`null`. -/
def detectSponsorship (description : Option String) (tags : JsTags) :
    SponsorshipInfo :=
  let dOpt : Option String := truthyDescription description
  let mks := match dOpt with
    | some d => matchedKeywords (jsToLower d)
    | none => []
  let details1 := match dOpt with
    | some d => descriptionDetails d
    | none => ""
  let brands1 := match dOpt with
    | some d => descriptionBrands d
    | none => []
  let tagState := match tags with
    | .arr l => l.foldl (fun acc tag => addTagKeywords acc (jsToLower tag)) (mks, false)
    | _ => (mks, false)
  let brands2 := match tags with
    | .arr l => l.filter (fun tag => decide (tag.length > 3) && startsUpper tag)
    | _ => []
  let m := adRegexOnDescription description
  let inds3 := match m with
    | some _ => tagState.1 ++ ["timestamp indicator"]
    | none => tagState.1
  let details3 := match m with
    | some (m1, _) => details1 ++ ("Ad segment detected at " ++ m1 ++ ". ")
    | none => details1
  let adDur := match m with
    | some (m1, some m2) =>
      let startTime := convertTimestampToSeconds m1
      let endTime := convertTimestampToSeconds m2
      if startTime ≠ TsResult.null ∧ endTime ≠ TsResult.null then
        tsSub endTime startTime
      else TsResult.null
    | _ => TsResult.null
  { hasSponsorship := !mks.isEmpty || tagState.2 || m.isSome
    sponsorshipDetails := jsTrim details3
    adIndicators := if inds3.length > 0 then dedupFirst [] inds3 else []
    detectedBrands := dedupFirst [] (brands1 ++ brands2)
    adDuration := adDur }

/-!
## Engagement, sentiment and effectiveness
(src/services/youtube.js lines 173-192, 314-383, 474-492)

The JS floating-point arithmetic of these functions is embedded as exact
rational arithmetic, preserving the source's operation structure.
-/

/-- The record returned by `calculateEngagementMetrics`. -/
structure EngagementMetrics where
  likeToViewRatio : ℚ
  commentToViewRatio : ℚ
  overallEngagementRate : ℚ
  adEffectivenessScore : ℚ
deriving DecidableEq, Repr

/-- `calculateEngagementMetrics(viewCount, likeCount, commentCount)`
(lines 173-192): all fields start at 0 and are assigned only when
`viewCount > 0`. -/
def calculateEngagementMetrics (viewCount likeCount commentCount : ℚ) :
    EngagementMetrics :=
  if viewCount > 0 then
    let ltv := (likeCount / viewCount) * 100
    let ctv := (commentCount / viewCount) * 100
    { likeToViewRatio := ltv
      commentToViewRatio := ctv
      overallEngagementRate := ((likeCount + commentCount) / viewCount) * 100
      adEffectivenessScore := ltv * (7/10) + ctv * (3/10) }
  else ⟨0, 0, 0, 0⟩

/-- A comment as seen by `analyzeCommentSentiment`: its text together with
the polarity score the external `natural` sentiment lexicon returns for
its tokenised text (`none` models a missing/`NaN` score, which the
source's `|| 0` maps to 0). -/
structure CommentLite where
  text : String
  score : Option ℚ
deriving DecidableEq, Repr

/-- `sentiment.getSentiment(tokens) || 0`. -/
def commentScore (c : CommentLite) : ℚ := c.score.getD 0

/-- Per-keyword accumulator of `keywordSentiment`. -/
structure KeywordStat where
  count : Nat
  totalSentiment : ℚ
  averageSentiment : ℚ
deriving DecidableEq, Repr

/-- The record returned by `analyzeCommentSentiment`.  `keywordSentiment`
is an association list in JS object insertion order. -/
structure SentimentSummary where
  averageSentiment : ℚ
  positivePercentage : ℚ
  negativePercentage : ℚ
  neutralPercentage : ℚ
  totalComments : Nat
  keywordSentiment : List (String × KeywordStat)
deriving DecidableEq, Repr

/-- The `adKeywords` list of the comment loop, in source order. -/
def adKeywords : List String := ["ad", "sponsor", "promotion", "sponsored", "brand", "product"]

/-- Running totals of the comment loop. -/
structure SentAcc where
  totalSentiment : ℚ
  positiveCount : Nat
  negativeCount : Nat
  neutralCount : Nat
deriving Repr

/-- One iteration of the comment loop: add the score to the running total
and classify (`> 0.05` positive, `< -0.05` negative, else neutral). -/
def sentStep (acc : SentAcc) (c : CommentLite) : SentAcc :=
  let sc := commentScore c
  let acc := { acc with totalSentiment := acc.totalSentiment + sc }
  if sc > 5/100 then { acc with positiveCount := acc.positiveCount + 1 }
  else if sc < -(5/100) then { acc with negativeCount := acc.negativeCount + 1 }
  else { acc with neutralCount := acc.neutralCount + 1 }

/-- Update the stats stored under a key of the association list, keeping
its position (JS object property update). -/
def assocUpdate (l : List (String × KeywordStat)) (k : String)
    (f : KeywordStat → KeywordStat) : List (String × KeywordStat) :=
  l.map (fun p => if p.1 = k then (p.1, f p.2) else p)

/-- The keyword part of one comment-loop iteration: for each ad keyword
contained in the lower-cased comment text, bump its count and running
sentiment total, creating the entry on first encounter (JS object key
insertion order). -/
def kwStep (acc : List (String × KeywordStat)) (c : CommentLite) :
    List (String × KeywordStat) :=
  adKeywords.foldl (fun a kw =>
    if strIncludes (jsToLower c.text) kw then
      match a.lookup kw with
      | some _ => assocUpdate a kw (fun st =>
          { st with count := st.count + 1
                    totalSentiment := st.totalSentiment + commentScore c })
      | none => a ++ [(kw, ⟨1, commentScore c, 0⟩)]
    else a) acc

/-- `analyzeCommentSentiment(comments)` (lines 314-383): the all-zero
summary for an empty list, otherwise loop accumulation followed by the
average/percentage computations (whose `|| 0` guards are identities over
exact rationals). -/
def analyzeCommentSentiment (comments : List CommentLite) : SentimentSummary :=
  if comments.isEmpty then ⟨0, 0, 0, 0, 0, []⟩
  else
    let acc := comments.foldl sentStep ⟨0, 0, 0, 0⟩
    let kws := comments.foldl kwStep []
    let kwsFinal := kws.map (fun p =>
      if p.2.count > 0 then
        (p.1, { p.2 with averageSentiment := p.2.totalSentiment / (p.2.count : ℚ) })
      else p)
    let n : ℚ := (comments.length : ℚ)
    { averageSentiment := acc.totalSentiment / n
      positivePercentage := ((acc.positiveCount : ℚ) / n) * 100
      negativePercentage := ((acc.negativeCount : ℚ) / n) * 100
      neutralPercentage := ((acc.neutralCount : ℚ) / n) * 100
      totalComments := comments.length
      keywordSentiment := kwsFinal }

/-- `calculateAdEffectiveness(engagementMetrics, sentiment)` (lines
474-492): 0.5/0.5 blend of the rescaled engagement score and the
sentiment spread, clamped to [0, 100]. -/
def calculateAdEffectiveness (engagementMetrics : EngagementMetrics)
    (sentiment : SentimentSummary) : ℚ :=
  let normalizedEngagement := min (engagementMetrics.adEffectivenessScore * 10) 100
  let sentimentScore :=
    (sentiment.positivePercentage - sentiment.negativePercentage + 100) / 2
  let effectivenessScore :=
    normalizedEngagement * (5/10) + sentimentScore * (5/10)
  max 0 (min 100 effectivenessScore)

/-!
## analyzeVideoContent (src/services/youtube.js lines 391-466)
-/

/-- The fields of the video record that `analyzeVideoContent` reads for
its result (title/description/tags only feed the prompt of the opaque
external call and are not modelled). -/
structure VideoDataLite where
  sponsorshipInfo : SponsorshipInfo
  engagementMetrics : EngagementMetrics
deriving Repr

/-- The `adSentiment` object of `analyzeVideoContent`'s result.  The
success path copies every `analyzeCommentSentiment` field; the catch
path's object literal has only the four numeric fields, so
`totalComments` and `keywordSentiment` are `Option`s that are `none`
(JS `undefined`) on failure. -/
structure AnalysisSentiment where
  averageSentiment : ℚ
  positivePercentage : ℚ
  negativePercentage : ℚ
  neutralPercentage : ℚ
  totalComments : Option Nat
  keywordSentiment : Option (List (String × KeywordStat))
deriving DecidableEq, Repr

/-- The success path passes the full `analyzeCommentSentiment` record
through. -/
def toAnalysisSentiment (s : SentimentSummary) : AnalysisSentiment :=
  ⟨s.averageSentiment, s.positivePercentage, s.negativePercentage,
   s.neutralPercentage, some s.totalComments, some s.keywordSentiment⟩

/-- The record returned by `analyzeVideoContent` (`lastAnalyzed`, a wall
clock read, is not modelled). -/
structure AnalysisResult where
  aiInsights : String
  adStyle : String
  adEffectiveness : ℚ
  adSentiment : AnalysisSentiment
deriving DecidableEq, Repr

/-- The `adStyle` fallback scan of the generative reply (lines 433-437):
`"long-form"` is checked before `"short-form"`; neither leaves
`"Unknown"`. -/
def adStyleFromReply (aiInsights : String) : String :=
  if strIncludes (jsToLower aiInsights) "long-form" then "Long-form"
  else if strIncludes (jsToLower aiInsights) "short-form" then "Short-form"
  else "Unknown"

/-- `analyzeVideoContent(videoData, comments)` (lines 391-466),
parameterised by the outcome of the external generative-text call:
`genReply = some reply` models `response.text()` succeeding with `reply`,
`none` models the call throwing, which the catch block turns into the
fixed partial result.  On success, `adStyle` follows the source's
truthiness test `if (sponsorshipInfo.adDuration)` — a duration of `null`,
`0` or `NaN` is falsy and falls through to the reply scan. -/
def analyzeVideoContent (videoData : VideoDataLite)
    (comments : List CommentLite) (genReply : Option String) : AnalysisResult :=
  match genReply with
  | none =>
    { aiInsights := "Analysis failed"
      adStyle := "Unknown"
      adEffectiveness := 0
      adSentiment := ⟨0, 0, 0, 0, none, none⟩ }
  | some reply =>
    let aiInsights := jsTrim reply
    let si := videoData.sponsorshipInfo
    let adStyle :=
      if si.hasSponsorship then
        match si.adDuration with
        | .num d =>
          if d ≠ 0 then (if d > 60 then "Long-form" else "Short-form")
          else adStyleFromReply aiInsights
        | _ => adStyleFromReply aiInsights
      else "Unknown"
    let commentSentiment := analyzeCommentSentiment comments
    let adEffectiveness :=
      calculateAdEffectiveness videoData.engagementMetrics commentSentiment
    { aiInsights := aiInsights
      adStyle := adStyle
      adEffectiveness := adEffectiveness
      adSentiment := toAnalysisSentiment commentSentiment }

/-!
## generateChannelAdInsights (src/services/youtube.js lines 590-640)

The per-video pipeline `generateAdInsightsReport` (whose body is a chain
of external calls) is an oracle: each stored video comes with the outcome
its `await` produced — a `{success:true}` resolution, a
`{success:false, error}` resolution, or a thrown error.
-/

/-- A stored video row as read by the channel loop. -/
structure VideoRow where
  videoId : String
  title : String
deriving DecidableEq, Repr

/-- Outcome of `await generateAdInsightsReport(video.videoId)` for one
video. -/
inductive PerVideoOutcome where
  | ok : PerVideoOutcome
  | err : String → PerVideoOutcome
  | thrown : String → PerVideoOutcome
deriving DecidableEq, Repr

/-- One element of the `results.reports` list. -/
structure BatchItem where
  videoId : String
  title : String
  success : Bool
  error : Option String
deriving DecidableEq, Repr

/-- The `results` object of the batch. -/
structure BatchResults where
  total : Nat
  processed : Nat
  failed : Nat
  reports : List BatchItem
deriving DecidableEq, Repr

/-- Terminal value of `generateChannelAdInsights`. -/
inductive BatchOutcome where
  | failure : String → BatchOutcome
  | success : BatchResults → BatchOutcome
deriving DecidableEq, Repr

/-- One iteration of the channel loop (lines 605-633): a success
increments `processed`, a `{success:false}` result or a thrown error
increments `failed`; every video appends one report item. -/
def channelStep (acc : BatchResults) (v : VideoRow × PerVideoOutcome) :
    BatchResults :=
  match v.2 with
  | .ok =>
    { acc with processed := acc.processed + 1
               reports := acc.reports ++ [⟨v.1.videoId, v.1.title, true, none⟩] }
  | .err msg =>
    { acc with failed := acc.failed + 1
               reports := acc.reports ++ [⟨v.1.videoId, v.1.title, false, some msg⟩] }
  | .thrown msg =>
    { acc with failed := acc.failed + 1
               reports := acc.reports ++ [⟨v.1.videoId, v.1.title, false, some msg⟩] }

/-- `generateChannelAdInsights(channelId)` (lines 590-640) over the
channel's stored videos paired with their per-video outcomes: an empty
video list is the terminal failure, otherwise the sequential loop runs to
completion and the batch itself succeeds. -/
def generateChannelAdInsights (videos : List (VideoRow × PerVideoOutcome)) :
    BatchOutcome :=
  if videos.isEmpty then .failure "No videos found for this channel"
  else .success (videos.foldl channelStep ⟨videos.length, 0, 0, []⟩)

/-!
## Theorems
-/

/-- **C2.** `parseTimestamp("1:30")` is 90 seconds and
`parseTimestamp("1:00:30")` is 3630 seconds as the spec states, but
`parseTimestamp("abc")` is `NaN`, not `null`: the single-part branch
returns `parseInt("abc", 10)` unchecked, contradicting the function's own
JSDoc (`@returns {number|null} ... null if invalid`).  The function is
total (it never raises). -/
theorem c2_parseTimestamp_eval :
    convertTimestampToSeconds "1:30" = TsResult.num 90 ∧
    convertTimestampToSeconds "1:00:30" = TsResult.num 3630 ∧
    convertTimestampToSeconds "abc" = TsResult.nan :=
  ⟨by decide, by decide, by decide⟩

/-- **C1 (counterexample).** `detectSponsorship` stores a strictly
negative `adDuration` for the description `"10:00 - 0:30 sponsor"`: both
timestamps parse (600 and 30 seconds) and the code computes
`endTime - startTime = -570` with no non-negativity check. -/
theorem c1_counterexample :
    (detectSponsorship (some "10:00 - 0:30 sponsor") (JsTags.arr [])).adDuration
        = TsResult.num (-570) ∧
    (-570 : Int) < 0 :=
  ⟨by decide, by decide⟩

/-- **C1 (amended).** `adDuration` is `null` unless the ad-timestamp
pattern matched the description with the optional end-timestamp group
present; when it is set, its value is exactly `endSeconds - startSeconds`
of the two captured timestamps — a difference that may be negative (and
`NaN` when a captured part fails integer parsing); no non-negativity
condition is enforced. -/
theorem c1_adDuration_characterisation (description : Option String) (tags : JsTags) :
    (detectSponsorship description tags).adDuration = TsResult.null ∨
    ∃ m1 m2, adRegexOnDescription description = some (m1, some m2) ∧
      (detectSponsorship description tags).adDuration =
        tsSub (convertTimestampToSeconds m2) (convertTimestampToSeconds m1) := by
  rcases h : adRegexOnDescription description with _ | ⟨m1, _ | m2⟩
  · left
    simp [detectSponsorship, h]
  · left
    simp [detectSponsorship, h]
  · by_cases hnn : convertTimestampToSeconds m1 ≠ TsResult.null ∧
        convertTimestampToSeconds m2 ≠ TsResult.null
    · right
      exact ⟨m1, m2, by simp [h], by simp [detectSponsorship, h, hnn]⟩
    · left
      simp [detectSponsorship, h, hnn]

/-- The video record fields read by `analyzeVideoContent`, instantiated
trivially (no sponsorship signals, zero statistics). -/
def videoDataTrivial : VideoDataLite :=
  ⟨detectSponsorship none JsTags.null, calculateEngagementMetrics 0 0 0⟩

/-- **C3 (counterexample).** When the generative call fails, the returned
`adSentiment` object omits `totalComments` entirely (JS `undefined`): it
is not the all-zero summary of §3, whose `totalComments` is 0. -/
theorem c3_counterexample :
    (analyzeVideoContent videoDataTrivial [] none).adSentiment.totalComments
      ≠ some 0 := by decide

/-- **C3 (amended).** Whenever the external generative-text call fails,
`analyzeVideoContent` does not propagate the failure: it returns
`aiInsights = "Analysis failed"`, `adStyle = "Unknown"`,
`adEffectiveness = 0`, and a sentiment object whose four numeric fields
are 0 but which omits `totalComments` and `keywordSentiment` (both
`undefined`), for every video record and comment list. -/
theorem c3_failure_result (videoData : VideoDataLite) (comments : List CommentLite) :
    analyzeVideoContent videoData comments none =
      { aiInsights := "Analysis failed"
        adStyle := "Unknown"
        adEffectiveness := 0
        adSentiment := ⟨0, 0, 0, 0, none, none⟩ } := rfl

/-- **C10.** `detectSponsorship` with a `null`/`undefined` description
and `null`/`undefined`/non-array tags returns the empty result — no
sponsorship, empty details, empty indicator and brand lists, `null`
duration — and, being a total function, raises no exception. -/
theorem c10_null_inputs :
    detectSponsorship none JsTags.null = ⟨false, "", [], [], TsResult.null⟩ ∧
    detectSponsorship none JsTags.notArray = ⟨false, "", [], [], TsResult.null⟩ :=
  ⟨by decide, by decide⟩

/-- **C5.** `calculateEngagementMetrics` returns all four fields 0
whenever `viewCount ≤ 0`, and otherwise exactly the ratio formulas of the
spec: `likeToViewRatio = 100*like/view`,
`commentToViewRatio = 100*comment/view`,
`overallEngagementRate = 100*(like+comment)/view`, and
`adEffectivenessScore = 0.7*likeToViewRatio + 0.3*commentToViewRatio`. -/
theorem c5_engagement_metrics (viewCount likeCount commentCount : ℚ) :
    (viewCount ≤ 0 →
      calculateEngagementMetrics viewCount likeCount commentCount = ⟨0, 0, 0, 0⟩) ∧
    (0 < viewCount →
      (calculateEngagementMetrics viewCount likeCount commentCount).likeToViewRatio
          = 100 * likeCount / viewCount ∧
      (calculateEngagementMetrics viewCount likeCount commentCount).commentToViewRatio
          = 100 * commentCount / viewCount ∧
      (calculateEngagementMetrics viewCount likeCount commentCount).overallEngagementRate
          = 100 * (likeCount + commentCount) / viewCount ∧
      (calculateEngagementMetrics viewCount likeCount commentCount).adEffectivenessScore
          = (7/10) * (calculateEngagementMetrics viewCount likeCount commentCount).likeToViewRatio
            + (3/10) * (calculateEngagementMetrics viewCount likeCount commentCount).commentToViewRatio) := by
  constructor
  · intro h
    rw [calculateEngagementMetrics, if_neg (not_lt.mpr h)]
  · intro h
    rw [calculateEngagementMetrics, if_pos h]
    refine ⟨by ring, by ring, by ring, by ring⟩

/-- **C5 (witness).** `compute(1000, 50, 10)` gives the spec's example
values 5.0 / 1.0 / 6.0, and `compute(0, 5, 2)` gives the all-zero record
(no division by zero). -/
theorem c5_engagement_metrics_witness :
    (calculateEngagementMetrics 1000 50 10).likeToViewRatio = 5 ∧
    (calculateEngagementMetrics 1000 50 10).commentToViewRatio = 1 ∧
    (calculateEngagementMetrics 1000 50 10).overallEngagementRate = 6 ∧
    calculateEngagementMetrics 0 5 2 = ⟨0, 0, 0, 0⟩ := by
  have h := (c5_engagement_metrics 1000 50 10).2 (by norm_num)
  have h0 := (c5_engagement_metrics 0 5 2).1 le_rfl
  exact ⟨by rw [h.1]; norm_num, by rw [h.2.1]; norm_num, by rw [h.2.2.1]; norm_num, h0⟩

/-- **C7.** `calculateAdEffectiveness` equals
`clamp(0.5*min(10*adEffectivenessScore, 100)
 + 0.5*((positivePercentage - negativePercentage + 100)/2), 0, 100)`
and its result always lies in [0, 100] (for any finite non-negative
engagement score and percentages in [0, 100], as the claim assumes). -/
theorem c7_ad_effectiveness (engagementMetrics : EngagementMetrics)
    (sentiment : SentimentSummary)
    (h1 : 0 ≤ engagementMetrics.adEffectivenessScore)
    (h2 : 0 ≤ sentiment.positivePercentage) (h3 : sentiment.positivePercentage ≤ 100)
    (h4 : 0 ≤ sentiment.negativePercentage) (h5 : sentiment.negativePercentage ≤ 100) :
    calculateAdEffectiveness engagementMetrics sentiment =
      max 0 (min 100
        ((1/2) * min (10 * engagementMetrics.adEffectivenessScore) 100
          + (1/2) * ((sentiment.positivePercentage
              - sentiment.negativePercentage + 100) / 2))) ∧
    0 ≤ calculateAdEffectiveness engagementMetrics sentiment ∧
    calculateAdEffectiveness engagementMetrics sentiment ≤ 100 := by
  refine ⟨?_, le_max_left _ _, max_le (by norm_num) (min_le_left _ _)⟩
  rw [calculateAdEffectiveness]
  rw [mul_comm engagementMetrics.adEffectivenessScore 10]
  ring_nf

/-- **C7 (witness).** The bound holds at a concrete engagement record and
sentiment summary satisfying the claim's assumptions. -/
theorem c7_ad_effectiveness_witness :
    0 ≤ calculateAdEffectiveness (calculateEngagementMetrics 1000 50 10)
          (analyzeCommentSentiment []) ∧
    calculateAdEffectiveness (calculateEngagementMetrics 1000 50 10)
          (analyzeCommentSentiment []) ≤ 100 :=
  (c7_ad_effectiveness (calculateEngagementMetrics 1000 50 10) (analyzeCommentSentiment [])
    (by norm_num [calculateEngagementMetrics])
    (by norm_num [analyzeCommentSentiment]) (by norm_num [analyzeCommentSentiment])
    (by norm_num [analyzeCommentSentiment]) (by norm_num [analyzeCommentSentiment])).2

/-- A per-video outcome that is counted by the `failed` counter (either a
`{success:false}` resolution or a thrown error). -/
def isFailure : PerVideoOutcome → Bool
  | .ok => false
  | .err _ => true
  | .thrown _ => true

/-- Number of videos of the batch whose per-video analysis fails. -/
def failCount (videos : List (VideoRow × PerVideoOutcome)) : Nat :=
  videos.countP (fun v => isFailure v.2)

/-- Number of videos of the batch whose per-video analysis succeeds. -/
def okCount (videos : List (VideoRow × PerVideoOutcome)) : Nat :=
  videos.countP (fun v => !isFailure v.2)

/-- The report item the channel loop records for one video. -/
def reportItem (v : VideoRow × PerVideoOutcome) : BatchItem :=
  match v.2 with
  | .ok => ⟨v.1.videoId, v.1.title, true, none⟩
  | .err msg => ⟨v.1.videoId, v.1.title, false, some msg⟩
  | .thrown msg => ⟨v.1.videoId, v.1.title, false, some msg⟩

lemma okCount_add_failCount (videos : List (VideoRow × PerVideoOutcome)) :
    okCount videos + failCount videos = videos.length := by
  induction videos with
  | nil => rfl
  | cons v tl ih =>
    simp only [okCount, failCount, List.countP_cons, List.length_cons] at ih ⊢
    cases h : isFailure v.2 <;> simp [h] <;> omega

lemma channelFold_spec (videos : List (VideoRow × PerVideoOutcome))
    (acc : BatchResults) :
    videos.foldl channelStep acc =
      ⟨acc.total, acc.processed + okCount videos, acc.failed + failCount videos,
       acc.reports ++ videos.map reportItem⟩ := by
  induction videos generalizing acc with
  | nil => simp [okCount, failCount]
  | cons v tl ih =>
    rw [List.foldl_cons, ih]
    cases hv : v.2 <;>
      simp [channelStep, hv, okCount, failCount, List.countP_cons, isFailure,
        reportItem, BatchResults.mk.injEq] <;>
      omega

/-- **C4.** A channel with no stored videos is the terminal failure;
otherwise the batch itself succeeds with `total = n`,
`processed = n - k`, `failed = k` (where `k` counts the videos whose
per-video analysis failed or threw), and one report item per video in
order, each failing item carrying its error message — so no single
failure stops or fails the batch. -/
theorem c4_channel_batch (videos : List (VideoRow × PerVideoOutcome)) :
    (videos = [] →
      generateChannelAdInsights videos = .failure "No videos found for this channel") ∧
    (videos ≠ [] →
      generateChannelAdInsights videos =
        .success ⟨videos.length, videos.length - failCount videos, failCount videos,
                  videos.map reportItem⟩) := by
  constructor
  · intro h
    subst h
    rfl
  · intro h
    rw [generateChannelAdInsights, if_neg (by simpa using h), channelFold_spec]
    have hk := okCount_add_failCount videos
    have hko : okCount videos = videos.length - failCount videos := by omega
    simp [hko]

/-- The spec's batch example: three videos, the second of which fails
per-video analysis. -/
def demoVideos : List (VideoRow × PerVideoOutcome) :=
  [(⟨"v1", "first"⟩, .ok),
   (⟨"v2", "second"⟩, .err "Video not found"),
   (⟨"v3", "third"⟩, .ok)]

/-- **C4 (witness).** The batch over 3 videos with one failure returns
`{total:3, processed:2, failed:1}` with the failing item's error
recorded, and the batch call itself succeeds. -/
theorem c4_channel_batch_witness :
    generateChannelAdInsights demoVideos =
      .success ⟨3, 2, 1,
        [⟨"v1", "first", true, none⟩,
         ⟨"v2", "second", false, some "Video not found"⟩,
         ⟨"v3", "third", true, none⟩]⟩ :=
  (c4_channel_batch demoVideos).2 (by decide)

lemma sentStep_counts (comments : List CommentLite) (acc : SentAcc) :
    (comments.foldl sentStep acc).positiveCount
      + (comments.foldl sentStep acc).negativeCount
      + (comments.foldl sentStep acc).neutralCount
    = acc.positiveCount + acc.negativeCount + acc.neutralCount + comments.length := by
  induction comments generalizing acc with
  | nil => simp
  | cons c tl ih =>
    rw [List.foldl_cons, ih]
    by_cases h1 : commentScore c > 5/100
    · simp [sentStep, h1]
      omega
    · by_cases h2 : commentScore c < -(5/100) <;> simp [sentStep, h1, h2] <;> omega

/-- **C6.** `analyzeCommentSentiment([])` is the all-zero summary with
`totalComments = 0`; and for every non-empty comment list — each comment
classified positive when its polarity score exceeds 0.05, negative when
below -0.05, neutral otherwise — the three percentages sum to exactly
100 (the classification partitions the comments). -/
theorem c6_sentiment_percentages (comments : List CommentLite) :
    analyzeCommentSentiment [] = ⟨0, 0, 0, 0, 0, []⟩ ∧
    (comments ≠ [] →
      (analyzeCommentSentiment comments).positivePercentage
        + (analyzeCommentSentiment comments).negativePercentage
        + (analyzeCommentSentiment comments).neutralPercentage = 100) := by
  refine ⟨rfl, fun h => ?_⟩
  have hne : comments.isEmpty = false := by simpa using h
  have hlen : comments.length ≠ 0 := by simpa using h
  have hn : ((comments.length : ℚ)) ≠ 0 := Nat.cast_ne_zero.mpr hlen
  have hc : (comments.foldl sentStep ⟨0, 0, 0, 0⟩).positiveCount
      + (comments.foldl sentStep ⟨0, 0, 0, 0⟩).negativeCount
      + (comments.foldl sentStep ⟨0, 0, 0, 0⟩).neutralCount = comments.length := by
    simpa using sentStep_counts comments ⟨0, 0, 0, 0⟩
  have hcast : ((comments.foldl sentStep ⟨0, 0, 0, 0⟩).positiveCount : ℚ)
      + ((comments.foldl sentStep ⟨0, 0, 0, 0⟩).negativeCount : ℚ)
      + ((comments.foldl sentStep ⟨0, 0, 0, 0⟩).neutralCount : ℚ)
      = (comments.length : ℚ) := by exact_mod_cast hc
  rw [analyzeCommentSentiment, if_neg (by simp [hne])]
  show ((comments.foldl sentStep ⟨0, 0, 0, 0⟩).positiveCount : ℚ)
        / (comments.length : ℚ) * 100
      + ((comments.foldl sentStep ⟨0, 0, 0, 0⟩).negativeCount : ℚ)
        / (comments.length : ℚ) * 100
      + ((comments.foldl sentStep ⟨0, 0, 0, 0⟩).neutralCount : ℚ)
        / (comments.length : ℚ) * 100 = 100
  field_simp
  linarith [hcast]

/-- **C6 (witness).** A singleton comment list (one neutral comment)
realises the non-empty case: the three percentages sum to 100. -/
theorem c6_sentiment_percentages_witness :
    (analyzeCommentSentiment [⟨"great ad", some 0⟩]).positivePercentage
      + (analyzeCommentSentiment [⟨"great ad", some 0⟩]).negativePercentage
      + (analyzeCommentSentiment [⟨"great ad", some 0⟩]).neutralPercentage = 100 :=
  (c6_sentiment_percentages [⟨"great ad", some 0⟩]).2 (by simp)

/-- A reachable video record whose detected sponsorship has the numeric
ad duration 0: the ad segment `"0:30 - 0:30 sponsor"` starts and ends at
the same timestamp. -/
def videoDataZeroDuration : VideoDataLite :=
  ⟨detectSponsorship (some "0:30 - 0:30 sponsor") (JsTags.arr []),
   calculateEngagementMetrics 0 0 0⟩

/-- **C8 (counterexample).** With sponsorship detected and the numeric
`adDuration = 0` available, the claim requires `"Short-form"` (0 does not
exceed 60 and duration is authoritative); but `if (adDuration)` is falsy
at 0, so the code falls through to the reply scan and returns
`"Long-form"` when the generative reply mentions it. -/
theorem c8_counterexample :
    videoDataZeroDuration.sponsorshipInfo.hasSponsorship = true ∧
    videoDataZeroDuration.sponsorshipInfo.adDuration = TsResult.num 0 ∧
    (analyzeVideoContent videoDataZeroDuration []
        (some "A long-form sponsored segment")).adStyle = "Long-form" :=
  ⟨by decide, by decide, by decide⟩

/-- **C8 (amended).** In the composed result, `adStyle` is `"Unknown"`
when sponsorship was not detected; when sponsorship was detected and a
*truthy* numeric `adDuration` is available (a nonzero number — a duration
of `null`, `0` or `NaN` is falsy), `adStyle` is `"Long-form"` exactly
when the duration exceeds 60 seconds and `"Short-form"` otherwise; in the
falsy cases the style falls back to scanning the trimmed generative
reply's lower-cased text for `"long-form"` then `"short-form"`, remaining
`"Unknown"` if neither appears. -/
theorem c8_adStyle_resolution (videoData : VideoDataLite)
    (comments : List CommentLite) (reply : String) :
    (videoData.sponsorshipInfo.hasSponsorship = false →
      (analyzeVideoContent videoData comments (some reply)).adStyle = "Unknown") ∧
    (∀ d : Int, videoData.sponsorshipInfo.hasSponsorship = true →
      videoData.sponsorshipInfo.adDuration = TsResult.num d → d ≠ 0 →
      (analyzeVideoContent videoData comments (some reply)).adStyle =
        (if d > 60 then "Long-form" else "Short-form")) ∧
    (videoData.sponsorshipInfo.hasSponsorship = true →
      (videoData.sponsorshipInfo.adDuration = TsResult.null ∨
       videoData.sponsorshipInfo.adDuration = TsResult.num 0 ∨
       videoData.sponsorshipInfo.adDuration = TsResult.nan) →
      (analyzeVideoContent videoData comments (some reply)).adStyle =
        (if strIncludes (jsToLower (jsTrim reply)) "long-form" then "Long-form"
         else if strIncludes (jsToLower (jsTrim reply)) "short-form" then "Short-form"
         else "Unknown")) := by
  refine ⟨fun h => ?_, fun d h hd hdz => ?_, fun h hfalsy => ?_⟩
  · simp [analyzeVideoContent, h]
  · simp [analyzeVideoContent, h, hd, hdz]
  · rcases hfalsy with hd | hd | hd <;>
      simp [analyzeVideoContent, h, hd, adStyleFromReply]

/-- A reachable video record whose detected ad segment
(`"0:30 - 2:30 sponsor"`) has duration 120 seconds. -/
def videoDataLongDuration : VideoDataLite :=
  ⟨detectSponsorship (some "0:30 - 2:30 sponsor") (JsTags.arr []),
   calculateEngagementMetrics 0 0 0⟩

/-- **C8 (witness).** A detected sponsorship with duration 120 seconds is
classified `"Long-form"` regardless of the reply text. -/
theorem c8_adStyle_resolution_witness :
    (analyzeVideoContent videoDataLongDuration [] (some "no style hint")).adStyle
      = "Long-form" := by
  have h := (c8_adStyle_resolution videoDataLongDuration [] "no style hint").2.1 120
    (by decide) (by decide) (by decide)
  simpa using h

lemma mem_foldl_tagKeywords (kws : List String) (tagLower : String)
    (acc : List String × Bool) {x : String} (hx : x ∈ acc.1) :
    x ∈ (kws.foldl (fun a kw =>
      if strIncludes tagLower kw && !a.1.contains kw then (a.1 ++ [kw], true)
      else a) acc).1 := by
  induction kws generalizing acc with
  | nil => exact hx
  | cons kw tl ih =>
    rw [List.foldl_cons]
    apply ih
    split
    · exact List.mem_append_left _ hx
    · exact hx

lemma mem_addTagKeywords (acc : List String × Bool) (tagLower : String)
    {x : String} (hx : x ∈ acc.1) : x ∈ (addTagKeywords acc tagLower).1 :=
  mem_foldl_tagKeywords sponsorKeywords tagLower acc hx

lemma mem_foldl_tags (tags : List String) (acc : List String × Bool)
    {x : String} (hx : x ∈ acc.1) :
    x ∈ (tags.foldl (fun a tag => addTagKeywords a (jsToLower tag)) acc).1 := by
  induction tags generalizing acc with
  | nil => exact hx
  | cons t tl ih =>
    rw [List.foldl_cons]
    exact ih _ (mem_addTagKeywords acc (jsToLower t) hx)

lemma mem_dedupFirst_of_mem {x : String} (seen l : List String)
    (hx : x ∈ l) (hs : seen.contains x = false) : x ∈ dedupFirst seen l := by
  induction l generalizing seen with
  | nil => cases hx
  | cons y ys ih =>
    rw [dedupFirst]
    by_cases hy : seen.contains y = true
    · rw [if_pos hy]
      rcases List.mem_cons.mp hx with rfl | hmem
      · rw [hs] at hy
        cases hy
      · exact ih seen hmem hs
    · rw [if_neg hy]
      by_cases hxy : x = y
      · subst hxy
        exact List.mem_cons_self _ _
      · rcases List.mem_cons.mp hx with rfl | hmem
        · exact absurd rfl hxy
        · refine List.mem_cons_of_mem _ (ih (y :: seen) hmem ?_)
          show ((x == y) || seen.contains x) = false
          rw [hs]
          simp [hxy]

lemma strIncludes_iff (haystack needle : String) :
    strIncludes haystack needle = true ↔ needle.toList <:+: haystack.toList := by
  simp [strIncludes]

lemma mem_guardDedup {x : String} (l : List String) (hx : x ∈ l) :
    x ∈ (if l.length > 0 then dedupFirst [] l else []) := by
  rw [if_pos (List.length_pos.mpr (List.ne_nil_of_mem hx))]
  exact mem_dedupFirst_of_mem [] l hx rfl

/-- **C9.** Indicator phrases are matched by independent substring
containment against the whole (lower-cased) description: whenever a
configured phrase `q` occurs in the lower-cased description, every
configured phrase `p` that is a substring of `q` is recorded in
`adIndicators` as well — so a description containing `"sponsored"` always
records both `"sponsor"` and `"sponsored"`. -/
theorem c9_indicator_substring (d : String) (tags : JsTags) (p q : String)
    (hp : p ∈ sponsorKeywords) (hq : q ∈ sponsorKeywords)
    (hpq : p.toList <:+: q.toList)
    (hdq : strIncludes (jsToLower d) q = true) :
    p ∈ (detectSponsorship (some d) tags).adIndicators ∧
    q ∈ (detectSponsorship (some d) tags).adIndicators := by
  have hdp : strIncludes (jsToLower d) p = true :=
    (strIncludes_iff _ _).mpr (hpq.trans ((strIncludes_iff _ _).mp hdq))
  have hqne : q ≠ "" := by
    intro hq0
    subst hq0
    revert hq
    decide
  have hdne : d.toList.isEmpty = false := by
    cases hd : d.toList with
    | nil =>
      exfalso
      apply hqne
      have hinf := (strIncludes_iff _ _).mp hdq
      have h0 : (jsToLower d).toList = [] := by
        rw [show (jsToLower d).toList = d.toList.map Char.toLower from rfl, hd]
        rfl
      rw [h0] at hinf
      have hqnil : q.toList = [] := List.sublist_nil.mp hinf.sublist
      obtain ⟨qd⟩ := q
      simp only [String.toList] at hqnil
      subst hqnil
      rfl
    | cons a l => rfl
  have hdnil : ¬ d.data = [] := by
    intro h0
    rw [show d.toList = d.data from rfl, h0] at hdne
    cases hdne
  have hdopt : truthyDescription (some d) = some d := by
    simp [truthyDescription, hdnil]
  -- every keyword contained in the lower-cased description survives to
  -- the final adIndicators list
  have hmx : ∀ x : String, x ∈ sponsorKeywords → strIncludes (jsToLower d) x = true →
      x ∈ (detectSponsorship (some d) tags).adIndicators := by
    intro x hxk hxinc
    have h1 : x ∈ matchedKeywords (jsToLower d) :=
      List.mem_filter.mpr ⟨hxk, hxinc⟩
    cases hm : adRegexOnDescription (some d) with
    | none =>
      cases tags with
      | arr l =>
        simp only [detectSponsorship, hdopt, hm]
        exact mem_guardDedup _ (mem_foldl_tags l _ h1)
      | null =>
        simp only [detectSponsorship, hdopt, hm]
        exact mem_guardDedup _ h1
      | notArray =>
        simp only [detectSponsorship, hdopt, hm]
        exact mem_guardDedup _ h1
    | some mm =>
      cases tags with
      | arr l =>
        simp only [detectSponsorship, hdopt, hm]
        exact mem_guardDedup _ (List.mem_append_left _ (mem_foldl_tags l _ h1))
      | null =>
        simp only [detectSponsorship, hdopt, hm]
        exact mem_guardDedup _ (List.mem_append_left _ h1)
      | notArray =>
        simp only [detectSponsorship, hdopt, hm]
        exact mem_guardDedup _ (List.mem_append_left _ h1)
  exact ⟨hmx p hp hdp, hmx q hq hdq⟩

/-- **C9 (witness).** The description `"this was sponsored content"`
records both `"sponsor"` and `"sponsored"` in `adIndicators`. -/
theorem c9_indicator_substring_witness :
    "sponsor" ∈ (detectSponsorship (some "this was sponsored content")
        JsTags.null).adIndicators ∧
    "sponsored" ∈ (detectSponsorship (some "this was sponsored content")
        JsTags.null).adIndicators :=
  c9_indicator_substring "this was sponsored content" JsTags.null
    "sponsor" "sponsored" (by decide) (by decide) (by decide) (by decide)

end AdInsights
